import Mathlib

/-!
Shallow embedding of the OpenVR-AdvancedSettings IVRInput wrapper
(src/src/ivrinput/ivrinput.cpp, and the second version of the same file in
src/unnamed/part_001).

The external SteamVR runtime (the object returned by vr::VRInput()) is
modelled as an explicit record of oracle functions, passed to every
embedded function.  A call to GetDigitalActionData / GetAnalogActionData
either succeeds and fills the caller's out-struct with data, or fails with
an error code and leaves the (zero-initialized) out-struct untouched, which
is the OpenVR API contract this wrapper relies on; it is modelled with
Except.  Thrown C++ exceptions are modelled with Except String; easylogging
LOG(ERROR) output is modelled as a List String of messages accumulated by
each call.  C++ reference parameters (Action&) are modelled by returning
the (possibly updated) Action alongside the result, and member functions
return the post-state of the object alongside their result, so that frame
properties are statements, not modelling artifacts.
-/

set_option autoImplicit false

namespace vr

/-- Model of vr::VRActionHandle_t (a uint64 opaque handle). -/
abbrev VRActionHandle_t := Nat

/-- Model of vr::VRActionSetHandle_t (a uint64 opaque handle). -/
abbrev VRActionSetHandle_t := Nat

/-- Model of vr::VRInputValueHandle_t (a uint64 opaque handle). -/
abbrev VRInputValueHandle_t := Nat

/-- Model of vr::k_ulInvalidInputValueHandle, the null input-value handle
used as the unrestricted device scope. -/
def k_ulInvalidInputValueHandle : VRInputValueHandle_t := 0

/-- Model of vr::EVRInputError, the error enum of the IVRInput API.  Only
comparison with VRInputError_None matters to the wrapper; a representative
set of the enum constants is carried so error codes are distinguishable. -/
inductive EVRInputError where
  | VRInputError_None
  | VRInputError_NameNotFound
  | VRInputError_WrongType
  | VRInputError_InvalidHandle
  | VRInputError_InvalidParam
  | VRInputError_NoSteam
  | VRInputError_MaxCapacityReached
  deriving DecidableEq

/-- The integer value of each modelled EVRInputError constant, as streamed
into the log by operator<<. -/
def EVRInputError.code : EVRInputError → Nat
  | .VRInputError_None => 0
  | .VRInputError_NameNotFound => 1
  | .VRInputError_WrongType => 2
  | .VRInputError_InvalidHandle => 3
  | .VRInputError_InvalidParam => 4
  | .VRInputError_NoSteam => 5
  | .VRInputError_MaxCapacityReached => 6

/-- Model of vr::InputDigitalActionData_t.  The float field fUpdateTime is
never read or computed with by the wrapper, so its value is modelled by an
abstract integer (0 when zero-initialized). -/
structure InputDigitalActionData_t where
  bActive : Bool
  activeOrigin : VRInputValueHandle_t
  bState : Bool
  bChanged : Bool
  fUpdateTime : Int
  deriving DecidableEq

/-- The zero-initialized digital action data struct, as produced by the
C++ initializer `vr::InputDigitalActionData_t handleData = {};`. -/
def InputDigitalActionData_t.zero : InputDigitalActionData_t :=
  { bActive := false
  , activeOrigin := 0
  , bState := false
  , bChanged := false
  , fUpdateTime := 0 }

/-- Model of vr::InputAnalogActionData_t.  The float fields are never read
or computed with by the wrapper, so their values are modelled by abstract
integers (0 when zero-initialized). -/
structure InputAnalogActionData_t where
  bActive : Bool
  activeOrigin : VRInputValueHandle_t
  x : Int
  y : Int
  z : Int
  deltaX : Int
  deltaY : Int
  deltaZ : Int
  fUpdateTime : Int
  deriving DecidableEq

/-- The zero-initialized analog action data struct, as produced by the
C++ initializer `vr::InputAnalogActionData_t handleData = {};`. -/
def InputAnalogActionData_t.zero : InputAnalogActionData_t :=
  { bActive := false
  , activeOrigin := 0
  , x := 0
  , y := 0
  , z := 0
  , deltaX := 0
  , deltaY := 0
  , deltaZ := 0
  , fUpdateTime := 0 }

/-- Model of vr::VRActiveActionSet_t: the descriptor (set handle,
restriction scope, priority) passed to UpdateActionState every frame. -/
structure VRActiveActionSet_t where
  ulActionSet : VRActionSetHandle_t
  ulRestrictedToDevice : VRInputValueHandle_t
  nPriority : Int
  deriving DecidableEq

/-- Model of the external vr::IVRInput interface (the object returned by
vr::VRInput()).  Each field is an oracle for one external call the wrapper
makes.  GetDigitalActionData / GetAnalogActionData either succeed with the
data written into the out-struct, or fail with an error code without
writing it.  UpdateActionState takes the active action set descriptor and
the set count and returns an error code.  GetActionHandle and
GetActionSetHandle resolve names to opaque handles. -/
structure IVRInput where
  GetDigitalActionData :
    VRActionHandle_t → VRInputValueHandle_t →
      Except EVRInputError InputDigitalActionData_t
  GetAnalogActionData :
    VRActionHandle_t → VRInputValueHandle_t →
      Except EVRInputError InputAnalogActionData_t
  UpdateActionState : VRActiveActionSet_t → Nat → EVRInputError
  GetActionHandle : String → VRActionHandle_t
  GetActionSetHandle : String → VRActionSetHandle_t

end vr

namespace input

/-- Model of input::ActionType from ivrinput_action.h (Digital | Analog). -/
inductive ActionType where
  | Digital
  | Analog
  deriving DecidableEq

/-- Model of input::Action: name (manifest identifier), type, and the
opaque handle resolved once from the runtime. -/
structure Action where
  name : String
  type : ActionType
  handle : vr.VRActionHandle_t
  deriving DecidableEq

/-- Modelled from the spec: the Action constructor lives in a header that
is not under src/.  Per the spec, an Action holds a name, a type, and an
opaque handle resolved once from the external runtime at construction. -/
def Action.make (vrInput : vr.IVRInput) (name : String) (type : ActionType) :
    Action :=
  { name := name, type := type, handle := vrInput.GetActionHandle name }

/-- Model of input::ActionSet: name and the opaque set handle resolved
once from the runtime. -/
structure ActionSet where
  name : String
  handle : vr.VRActionSetHandle_t
  deriving DecidableEq

/-- Modelled from the spec: the ActionSet constructor lives in a header
that is not under src/.  Per the spec, an action set is resolved to an
opaque external handle from its name. -/
def ActionSet.make (vrInput : vr.IVRInput) (name : String) : ActionSet :=
  { name := name, handle := vrInput.GetActionSetHandle name }

namespace input_strings

/-- Modelled from the spec: the name constants live in a header that is
not under src/.  Their exact values are irrelevant to every claim; each is
modelled by a distinct string. -/
def k_setMain : String := "k_setMain"

def k_actionNextTrack : String := "k_actionNextTrack"

def k_actionPreviousTrack : String := "k_actionPreviousTrack"

def k_actionPausePlayTrack : String := "k_actionPausePlayTrack"

def k_actionStopTrack : String := "k_actionStopTrack"

def k_actionLeftHandPlayspaceRotate : String :=
  "k_actionLeftHandPlayspaceRotate"

def k_actionRightHandPlayspaceRotate : String :=
  "k_actionRightHandPlayspaceRotate"

def k_actionLeftHandPlayspaceMove : String := "k_actionLeftHandPlayspaceMove"

def k_actionRightHandPlayspaceMove : String := "k_actionRightHandPlayspaceMove"

def k_actionOptionalOverrideLeftHandPlayspaceRotate : String :=
  "k_actionOptionalOverrideLeftHandPlayspaceRotate"

def k_actionOptionalOverrideRightHandPlayspaceRotate : String :=
  "k_actionOptionalOverrideRightHandPlayspaceRotate"

def k_actionOptionalOverrideLeftHandPlayspaceMove : String :=
  "k_actionOptionalOverrideLeftHandPlayspaceMove"

def k_actionOptionalOverrideRightHandPlayspaceMove : String :=
  "k_actionOptionalOverrideRightHandPlayspaceMove"

def k_actionLeftHandRoomTurn : String := "k_actionLeftHandRoomTurn"

def k_actionRightHandRoomTurn : String := "k_actionRightHandRoomTurn"

def k_actionLeftHandRoomDrag : String := "k_actionLeftHandRoomDrag"

def k_actionRightHandRoomDrag : String := "k_actionRightHandRoomDrag"

def k_actionOptionalOverrideLeftHandRoomTurn : String :=
  "k_actionOptionalOverrideLeftHandRoomTurn"

def k_actionOptionalOverrideRightHandRoomTurn : String :=
  "k_actionOptionalOverrideRightHandRoomTurn"

def k_actionOptionalOverrideLeftHandRoomDrag : String :=
  "k_actionOptionalOverrideLeftHandRoomDrag"

def k_actionOptionalOverrideRightHandRoomDrag : String :=
  "k_actionOptionalOverrideRightHandRoomDrag"

def k_actionPushToTalk : String := "k_actionPushToTalk"

end input_strings

/-- The message of the std::runtime_error thrown by getDigitalActionData
on a type mismatch (ivrinput.cpp lines 29-31). -/
def digitalMismatchThrowMsg : String :=
  "Action was passed to IVRInput getDigitalActionData without being a digital type. See log for details."

/-- The LOG(ERROR) message emitted by getDigitalActionData on a type
mismatch (ivrinput.cpp lines 24-27). -/
def digitalMismatchLogMsg (action : Action) : String :=
  "Action was passed to IVRInput getDigitalActionData without being a digital type. Action: "
    ++ action.name

/-- The LOG(ERROR) message emitted by getDigitalActionData when the
runtime call fails (ivrinput.cpp lines 44-45). -/
def digitalDataErrorLogMsg (action : Action) (error : vr.EVRInputError) :
    String :=
  "Error getting IVRInput Digital Action Data for handle " ++ action.name
    ++ ". SteamVR Error: " ++ toString error.code

/-- The message of the std::runtime_error thrown by getAnalogActionData
on a type mismatch (ivrinput.cpp lines 71-73). -/
def analogMismatchThrowMsg : String :=
  "Action was passed to IVRInput getAnalogActionData without being an analog type. See log for details."

/-- The LOG(ERROR) message emitted by getAnalogActionData on a type
mismatch (ivrinput.cpp lines 66-69). -/
def analogMismatchLogMsg (action : Action) : String :=
  "Action was passed to IVRInput getAnalogActionData without being an analog type. Action: "
    ++ action.name

/-- The LOG(ERROR) message emitted by getAnalogActionData when the runtime
call fails (ivrinput.cpp lines 86-87; the source reuses the word Digital
in the analog message). -/
def analogDataErrorLogMsg (action : Action) (error : vr.EVRInputError) :
    String :=
  "Error getting IVRInput Digital Action Data for handle " ++ action.name
    ++ ". SteamVR Error: " ++ toString error.code

/-- The LOG(ERROR) message emitted by UpdateStates when UpdateActionState
fails (ivrinput.cpp lines 260-262). -/
def updateStatesErrorLogMsg (error : vr.EVRInputError) : String :=
  "Error during IVRInput action state update. OpenVR Error: "
    ++ toString error.code

/-- Embedding of input::getDigitalActionData (ivrinput.cpp lines 20-49).
Returns the action (passed by reference in C++), the result (the thrown
exception or the returned struct), and the log messages emitted. -/
def getDigitalActionData (vrInput : vr.IVRInput) (action : Action) :
    Action × Except String vr.InputDigitalActionData_t × List String :=
  if action.type ≠ ActionType.Digital then
    ( action
    , Except.error digitalMismatchThrowMsg
    , [ digitalMismatchLogMsg action ] )
  else
    match vrInput.GetDigitalActionData action.handle
        vr.k_ulInvalidInputValueHandle with
    | Except.ok handleData => ( action, Except.ok handleData, [] )
    | Except.error error =>
        if error ≠ vr.EVRInputError.VRInputError_None then
          ( action
          , Except.ok vr.InputDigitalActionData_t.zero
          , [ digitalDataErrorLogMsg action error ] )
        else
          ( action, Except.ok vr.InputDigitalActionData_t.zero, [] )

/-- Embedding of input::getAnalogActionData (ivrinput.cpp lines 62-91). -/
def getAnalogActionData (vrInput : vr.IVRInput) (action : Action) :
    Action × Except String vr.InputAnalogActionData_t × List String :=
  if action.type ≠ ActionType.Analog then
    ( action
    , Except.error analogMismatchThrowMsg
    , [ analogMismatchLogMsg action ] )
  else
    match vrInput.GetAnalogActionData action.handle
        vr.k_ulInvalidInputValueHandle with
    | Except.ok handleData => ( action, Except.ok handleData, [] )
    | Except.error error =>
        if error ≠ vr.EVRInputError.VRInputError_None then
          ( action
          , Except.ok vr.InputAnalogActionData_t.zero
          , [ analogDataErrorLogMsg action error ] )
        else
          ( action, Except.ok vr.InputAnalogActionData_t.zero, [] )

/-- Embedding of input::isDigitalActionActivatedOnce (ivrinput.cpp lines
99-104): reads the digital data and returns bState AND bChanged; an
exception from getDigitalActionData propagates. -/
def isDigitalActionActivatedOnce (vrInput : vr.IVRInput) (action : Action) :
    Action × Except String Bool × List String :=
  match getDigitalActionData vrInput action with
  | ( action2, Except.ok handleData, log ) =>
      ( action2, Except.ok (handleData.bState && handleData.bChanged), log )
  | ( action2, Except.error e, log ) => ( action2, Except.error e, log )

/-- Embedding of input::isDigitalActionActivatedConstant (ivrinput.cpp
lines 110-115): reads the digital data and returns bState; an exception
from getDigitalActionData propagates. -/
def isDigitalActionActivatedConstant (vrInput : vr.IVRInput)
    (action : Action) : Action × Except String Bool × List String :=
  match getDigitalActionData vrInput action with
  | ( action2, Except.ok handleData, log ) =>
      ( action2, Except.ok handleData.bState, log )
  | ( action2, Except.error e, log ) => ( action2, Except.error e, log )

/-- The member state of input::SteamIVRInput, src/src/ivrinput version
(ivrinput.cpp lines 125-158 and ivrinput.h).  m_manifest carries no state
relevant to this module and is modelled by Unit. -/
structure SteamIVRInput where
  m_manifest : Unit
  m_mainSet : ActionSet
  m_nextTrack : Action
  m_previousTrack : Action
  m_pausePlayTrack : Action
  m_stopTrack : Action
  m_leftHandPlayspaceRotate : Action
  m_rightHandPlayspaceRotate : Action
  m_leftHandPlayspaceMove : Action
  m_rightHandPlayspaceMove : Action
  m_optionalOverrideLeftHandPlayspaceRotate : Action
  m_optionalOverrideRightHandPlayspaceRotate : Action
  m_optionalOverrideLeftHandPlayspaceMove : Action
  m_optionalOverrideRightHandPlayspaceMove : Action
  m_activeActionSet : vr.VRActiveActionSet_t

/-- Embedding of the SteamIVRInput constructor (ivrinput.cpp lines
125-158): the initializer list constructs every member action with
ActionType::Digital, and the body fills the active action set descriptor
with the main set handle, the invalid input value handle, and priority
0. -/
def SteamIVRInput.make (vrInput : vr.IVRInput) : SteamIVRInput :=
  let m_mainSet := ActionSet.make vrInput input_strings.k_setMain
  { m_manifest := ()
  , m_mainSet := m_mainSet
  , m_nextTrack :=
      Action.make vrInput input_strings.k_actionNextTrack ActionType.Digital
  , m_previousTrack :=
      Action.make vrInput input_strings.k_actionPreviousTrack
        ActionType.Digital
  , m_pausePlayTrack :=
      Action.make vrInput input_strings.k_actionPausePlayTrack
        ActionType.Digital
  , m_stopTrack :=
      Action.make vrInput input_strings.k_actionStopTrack ActionType.Digital
  , m_leftHandPlayspaceRotate :=
      Action.make vrInput input_strings.k_actionLeftHandPlayspaceRotate
        ActionType.Digital
  , m_rightHandPlayspaceRotate :=
      Action.make vrInput input_strings.k_actionRightHandPlayspaceRotate
        ActionType.Digital
  , m_leftHandPlayspaceMove :=
      Action.make vrInput input_strings.k_actionLeftHandPlayspaceMove
        ActionType.Digital
  , m_rightHandPlayspaceMove :=
      Action.make vrInput input_strings.k_actionRightHandPlayspaceMove
        ActionType.Digital
  , m_optionalOverrideLeftHandPlayspaceRotate :=
      Action.make vrInput
        input_strings.k_actionOptionalOverrideLeftHandPlayspaceRotate
        ActionType.Digital
  , m_optionalOverrideRightHandPlayspaceRotate :=
      Action.make vrInput
        input_strings.k_actionOptionalOverrideRightHandPlayspaceRotate
        ActionType.Digital
  , m_optionalOverrideLeftHandPlayspaceMove :=
      Action.make vrInput
        input_strings.k_actionOptionalOverrideLeftHandPlayspaceMove
        ActionType.Digital
  , m_optionalOverrideRightHandPlayspaceMove :=
      Action.make vrInput
        input_strings.k_actionOptionalOverrideRightHandPlayspaceMove
        ActionType.Digital
  , m_activeActionSet :=
      { ulActionSet := m_mainSet.handle
      , ulRestrictedToDevice := vr.k_ulInvalidInputValueHandle
      , nPriority := 0 } }

/-- Embedding of SteamIVRInput::nextSong (ivrinput.cpp lines 165-168). -/
def SteamIVRInput.nextSong (vrInput : vr.IVRInput) (self : SteamIVRInput) :
    SteamIVRInput × Except String Bool × List String :=
  match isDigitalActionActivatedOnce vrInput self.m_nextTrack with
  | ( a, result, log ) => ( { self with m_nextTrack := a }, result, log )

/-- Embedding of SteamIVRInput::previousSong (ivrinput.cpp lines
176-179). -/
def SteamIVRInput.previousSong (vrInput : vr.IVRInput)
    (self : SteamIVRInput) :
    SteamIVRInput × Except String Bool × List String :=
  match isDigitalActionActivatedOnce vrInput self.m_previousTrack with
  | ( a, result, log ) => ( { self with m_previousTrack := a }, result, log )

/-- Embedding of SteamIVRInput::pausePlaySong (ivrinput.cpp lines
187-190). -/
def SteamIVRInput.pausePlaySong (vrInput : vr.IVRInput)
    (self : SteamIVRInput) :
    SteamIVRInput × Except String Bool × List String :=
  match isDigitalActionActivatedOnce vrInput self.m_pausePlayTrack with
  | ( a, result, log ) => ( { self with m_pausePlayTrack := a }, result, log )

/-- Embedding of SteamIVRInput::stopSong (ivrinput.cpp lines 198-201). -/
def SteamIVRInput.stopSong (vrInput : vr.IVRInput) (self : SteamIVRInput) :
    SteamIVRInput × Except String Bool × List String :=
  match isDigitalActionActivatedOnce vrInput self.m_stopTrack with
  | ( a, result, log ) => ( { self with m_stopTrack := a }, result, log )

/-- Embedding of SteamIVRInput::leftHandPlayspaceRotate (ivrinput.cpp
lines 203-206). -/
def SteamIVRInput.leftHandPlayspaceRotate (vrInput : vr.IVRInput)
    (self : SteamIVRInput) :
    SteamIVRInput × Except String Bool × List String :=
  match isDigitalActionActivatedConstant vrInput
      self.m_leftHandPlayspaceRotate with
  | ( a, result, log ) =>
      ( { self with m_leftHandPlayspaceRotate := a }, result, log )

/-- Embedding of SteamIVRInput::rightHandPlayspaceRotate (ivrinput.cpp
lines 208-211). -/
def SteamIVRInput.rightHandPlayspaceRotate (vrInput : vr.IVRInput)
    (self : SteamIVRInput) :
    SteamIVRInput × Except String Bool × List String :=
  match isDigitalActionActivatedConstant vrInput
      self.m_rightHandPlayspaceRotate with
  | ( a, result, log ) =>
      ( { self with m_rightHandPlayspaceRotate := a }, result, log )

/-- Embedding of SteamIVRInput::leftHandPlayspaceMove (ivrinput.cpp lines
213-216). -/
def SteamIVRInput.leftHandPlayspaceMove (vrInput : vr.IVRInput)
    (self : SteamIVRInput) :
    SteamIVRInput × Except String Bool × List String :=
  match isDigitalActionActivatedConstant vrInput
      self.m_leftHandPlayspaceMove with
  | ( a, result, log ) =>
      ( { self with m_leftHandPlayspaceMove := a }, result, log )

/-- Embedding of SteamIVRInput::rightHandPlayspaceMove (ivrinput.cpp lines
218-221). -/
def SteamIVRInput.rightHandPlayspaceMove (vrInput : vr.IVRInput)
    (self : SteamIVRInput) :
    SteamIVRInput × Except String Bool × List String :=
  match isDigitalActionActivatedConstant vrInput
      self.m_rightHandPlayspaceMove with
  | ( a, result, log ) =>
      ( { self with m_rightHandPlayspaceMove := a }, result, log )

/-- Embedding of SteamIVRInput::optionalOverrideLeftHandPlayspaceRotate
(ivrinput.cpp lines 222-226). -/
def SteamIVRInput.optionalOverrideLeftHandPlayspaceRotate
    (vrInput : vr.IVRInput) (self : SteamIVRInput) :
    SteamIVRInput × Except String Bool × List String :=
  match isDigitalActionActivatedConstant vrInput
      self.m_optionalOverrideLeftHandPlayspaceRotate with
  | ( a, result, log ) =>
      ( { self with m_optionalOverrideLeftHandPlayspaceRotate := a }
      , result, log )

/-- Embedding of SteamIVRInput::optionalOverrideRightHandPlayspaceRotate
(ivrinput.cpp lines 228-232). -/
def SteamIVRInput.optionalOverrideRightHandPlayspaceRotate
    (vrInput : vr.IVRInput) (self : SteamIVRInput) :
    SteamIVRInput × Except String Bool × List String :=
  match isDigitalActionActivatedConstant vrInput
      self.m_optionalOverrideRightHandPlayspaceRotate with
  | ( a, result, log ) =>
      ( { self with m_optionalOverrideRightHandPlayspaceRotate := a }
      , result, log )

/-- Embedding of SteamIVRInput::optionalOverrideLeftHandPlayspaceMove
(ivrinput.cpp lines 234-238). -/
def SteamIVRInput.optionalOverrideLeftHandPlayspaceMove
    (vrInput : vr.IVRInput) (self : SteamIVRInput) :
    SteamIVRInput × Except String Bool × List String :=
  match isDigitalActionActivatedConstant vrInput
      self.m_optionalOverrideLeftHandPlayspaceMove with
  | ( a, result, log ) =>
      ( { self with m_optionalOverrideLeftHandPlayspaceMove := a }
      , result, log )

/-- Embedding of SteamIVRInput::optionalOverrideRightHandPlayspaceMove
(ivrinput.cpp lines 240-244). -/
def SteamIVRInput.optionalOverrideRightHandPlayspaceMove
    (vrInput : vr.IVRInput) (self : SteamIVRInput) :
    SteamIVRInput × Except String Bool × List String :=
  match isDigitalActionActivatedConstant vrInput
      self.m_optionalOverrideRightHandPlayspaceMove with
  | ( a, result, log ) =>
      ( { self with m_optionalOverrideRightHandPlayspaceMove := a }
      , result, log )

/-- Embedding of SteamIVRInput::UpdateStates (ivrinput.cpp lines 251-264).
Besides the post-state and the log, it returns the list of
(descriptor, set count) calls made to the runtime UpdateActionState, in
order, so that the call pattern is a statement. -/
def SteamIVRInput.UpdateStates (vrInput : vr.IVRInput)
    (self : SteamIVRInput) :
    SteamIVRInput × List (vr.VRActiveActionSet_t × Nat) × List String :=
  let numberOfSets := 1
  let error := vrInput.UpdateActionState self.m_activeActionSet numberOfSets
  if error ≠ vr.EVRInputError.VRInputError_None then
    ( self
    , [ ( self.m_activeActionSet, numberOfSets ) ]
    , [ updateStatesErrorLogMsg error ] )
  else
    ( self, [ ( self.m_activeActionSet, numberOfSets ) ], [] )

end input

namespace part001

/-!
Embedding of the second version of the same translation unit,
src/unnamed/part_001.  Its free functions are translated independently
below; the SteamIVRInput class of this version declares room turn/drag
members and a push-to-talk member instead of the playspace members.
The shared types (Action, the vr structs) come from the shared header
model above.
-/

open input (Action ActionType ActionSet)

/-- The message of the std::runtime_error thrown by getDigitalActionData
on a type mismatch (part_001 lines 29-31). -/
def digitalMismatchThrowMsg : String :=
  "Action was passed to IVRInput getDigitalActionData without being a digital type. See log for details."

/-- The LOG(ERROR) message emitted by getDigitalActionData on a type
mismatch (part_001 lines 24-27). -/
def digitalMismatchLogMsg (action : Action) : String :=
  "Action was passed to IVRInput getDigitalActionData without being a digital type. Action: "
    ++ action.name

/-- The LOG(ERROR) message emitted by getDigitalActionData when the
runtime call fails (part_001 lines 44-45). -/
def digitalDataErrorLogMsg (action : Action) (error : vr.EVRInputError) :
    String :=
  "Error getting IVRInput Digital Action Data for handle " ++ action.name
    ++ ". SteamVR Error: " ++ toString error.code

/-- The message of the std::runtime_error thrown by getAnalogActionData
on a type mismatch (part_001 lines 71-73). -/
def analogMismatchThrowMsg : String :=
  "Action was passed to IVRInput getAnalogActionData without being an analog type. See log for details."

/-- The LOG(ERROR) message emitted by getAnalogActionData on a type
mismatch (part_001 lines 66-69). -/
def analogMismatchLogMsg (action : Action) : String :=
  "Action was passed to IVRInput getAnalogActionData without being an analog type. Action: "
    ++ action.name

/-- The LOG(ERROR) message emitted by getAnalogActionData when the runtime
call fails (part_001 lines 86-87; this version too reuses the word
Digital in the analog message). -/
def analogDataErrorLogMsg (action : Action) (error : vr.EVRInputError) :
    String :=
  "Error getting IVRInput Digital Action Data for handle " ++ action.name
    ++ ". SteamVR Error: " ++ toString error.code

/-- The LOG(ERROR) message emitted by UpdateStates when UpdateActionState
fails (part_001 lines 265-267). -/
def updateStatesErrorLogMsg (error : vr.EVRInputError) : String :=
  "Error during IVRInput action state update. OpenVR Error: "
    ++ toString error.code

/-- Embedding of input::getDigitalActionData, part_001 version (lines
20-49). -/
def getDigitalActionData (vrInput : vr.IVRInput) (action : Action) :
    Action × Except String vr.InputDigitalActionData_t × List String :=
  if action.type ≠ ActionType.Digital then
    ( action
    , Except.error digitalMismatchThrowMsg
    , [ digitalMismatchLogMsg action ] )
  else
    match vrInput.GetDigitalActionData action.handle
        vr.k_ulInvalidInputValueHandle with
    | Except.ok handleData => ( action, Except.ok handleData, [] )
    | Except.error error =>
        if error ≠ vr.EVRInputError.VRInputError_None then
          ( action
          , Except.ok vr.InputDigitalActionData_t.zero
          , [ digitalDataErrorLogMsg action error ] )
        else
          ( action, Except.ok vr.InputDigitalActionData_t.zero, [] )

/-- Embedding of input::getAnalogActionData, part_001 version (lines
62-91). -/
def getAnalogActionData (vrInput : vr.IVRInput) (action : Action) :
    Action × Except String vr.InputAnalogActionData_t × List String :=
  if action.type ≠ ActionType.Analog then
    ( action
    , Except.error analogMismatchThrowMsg
    , [ analogMismatchLogMsg action ] )
  else
    match vrInput.GetAnalogActionData action.handle
        vr.k_ulInvalidInputValueHandle with
    | Except.ok handleData => ( action, Except.ok handleData, [] )
    | Except.error error =>
        if error ≠ vr.EVRInputError.VRInputError_None then
          ( action
          , Except.ok vr.InputAnalogActionData_t.zero
          , [ analogDataErrorLogMsg action error ] )
        else
          ( action, Except.ok vr.InputAnalogActionData_t.zero, [] )

/-- Embedding of input::isDigitalActionActivatedOnce, part_001 version
(lines 99-104). -/
def isDigitalActionActivatedOnce (vrInput : vr.IVRInput) (action : Action) :
    Action × Except String Bool × List String :=
  match getDigitalActionData vrInput action with
  | ( action2, Except.ok handleData, log ) =>
      ( action2, Except.ok (handleData.bState && handleData.bChanged), log )
  | ( action2, Except.error e, log ) => ( action2, Except.error e, log )

/-- Embedding of input::isDigitalActionActivatedConstant, part_001 version
(lines 110-115). -/
def isDigitalActionActivatedConstant (vrInput : vr.IVRInput)
    (action : Action) : Action × Except String Bool × List String :=
  match getDigitalActionData vrInput action with
  | ( action2, Except.ok handleData, log ) =>
      ( action2, Except.ok handleData.bState, log )
  | ( action2, Except.error e, log ) => ( action2, Except.error e, log )

/-- The member state of input::SteamIVRInput, part_001 version (lines
125-158 of part_001 and its header). -/
structure SteamIVRInput where
  m_manifest : Unit
  m_mainSet : ActionSet
  m_nextTrack : Action
  m_previousTrack : Action
  m_pausePlayTrack : Action
  m_stopTrack : Action
  m_leftHandRoomTurn : Action
  m_rightHandRoomTurn : Action
  m_leftHandRoomDrag : Action
  m_rightHandRoomDrag : Action
  m_optionalOverrideLeftHandRoomTurn : Action
  m_optionalOverrideRightHandRoomTurn : Action
  m_optionalOverrideLeftHandRoomDrag : Action
  m_optionalOverrideRightHandRoomDrag : Action
  m_pushToTalk : Action
  m_activeActionSet : vr.VRActiveActionSet_t

/-- Embedding of the SteamIVRInput constructor, part_001 version (lines
125-158): every member action is constructed with ActionType::Digital and
the active action set descriptor is filled in the body. -/
def SteamIVRInput.make (vrInput : vr.IVRInput) : SteamIVRInput :=
  let m_mainSet := ActionSet.make vrInput input.input_strings.k_setMain
  { m_manifest := ()
  , m_mainSet := m_mainSet
  , m_nextTrack :=
      Action.make vrInput input.input_strings.k_actionNextTrack
        ActionType.Digital
  , m_previousTrack :=
      Action.make vrInput input.input_strings.k_actionPreviousTrack
        ActionType.Digital
  , m_pausePlayTrack :=
      Action.make vrInput input.input_strings.k_actionPausePlayTrack
        ActionType.Digital
  , m_stopTrack :=
      Action.make vrInput input.input_strings.k_actionStopTrack
        ActionType.Digital
  , m_leftHandRoomTurn :=
      Action.make vrInput input.input_strings.k_actionLeftHandRoomTurn
        ActionType.Digital
  , m_rightHandRoomTurn :=
      Action.make vrInput input.input_strings.k_actionRightHandRoomTurn
        ActionType.Digital
  , m_leftHandRoomDrag :=
      Action.make vrInput input.input_strings.k_actionLeftHandRoomDrag
        ActionType.Digital
  , m_rightHandRoomDrag :=
      Action.make vrInput input.input_strings.k_actionRightHandRoomDrag
        ActionType.Digital
  , m_optionalOverrideLeftHandRoomTurn :=
      Action.make vrInput
        input.input_strings.k_actionOptionalOverrideLeftHandRoomTurn
        ActionType.Digital
  , m_optionalOverrideRightHandRoomTurn :=
      Action.make vrInput
        input.input_strings.k_actionOptionalOverrideRightHandRoomTurn
        ActionType.Digital
  , m_optionalOverrideLeftHandRoomDrag :=
      Action.make vrInput
        input.input_strings.k_actionOptionalOverrideLeftHandRoomDrag
        ActionType.Digital
  , m_optionalOverrideRightHandRoomDrag :=
      Action.make vrInput
        input.input_strings.k_actionOptionalOverrideRightHandRoomDrag
        ActionType.Digital
  , m_pushToTalk :=
      Action.make vrInput input.input_strings.k_actionPushToTalk
        ActionType.Digital
  , m_activeActionSet :=
      { ulActionSet := m_mainSet.handle
      , ulRestrictedToDevice := vr.k_ulInvalidInputValueHandle
      , nPriority := 0 } }

/-- Embedding of SteamIVRInput::nextSong, part_001 version (lines
165-168). -/
def SteamIVRInput.nextSong (vrInput : vr.IVRInput) (self : SteamIVRInput) :
    SteamIVRInput × Except String Bool × List String :=
  match isDigitalActionActivatedOnce vrInput self.m_nextTrack with
  | ( a, result, log ) => ( { self with m_nextTrack := a }, result, log )

/-- Embedding of SteamIVRInput::previousSong, part_001 version (lines
176-179). -/
def SteamIVRInput.previousSong (vrInput : vr.IVRInput)
    (self : SteamIVRInput) :
    SteamIVRInput × Except String Bool × List String :=
  match isDigitalActionActivatedOnce vrInput self.m_previousTrack with
  | ( a, result, log ) => ( { self with m_previousTrack := a }, result, log )

/-- Embedding of SteamIVRInput::pausePlaySong, part_001 version (lines
187-190). -/
def SteamIVRInput.pausePlaySong (vrInput : vr.IVRInput)
    (self : SteamIVRInput) :
    SteamIVRInput × Except String Bool × List String :=
  match isDigitalActionActivatedOnce vrInput self.m_pausePlayTrack with
  | ( a, result, log ) => ( { self with m_pausePlayTrack := a }, result, log )

/-- Embedding of SteamIVRInput::stopSong, part_001 version (lines
198-201). -/
def SteamIVRInput.stopSong (vrInput : vr.IVRInput) (self : SteamIVRInput) :
    SteamIVRInput × Except String Bool × List String :=
  match isDigitalActionActivatedOnce vrInput self.m_stopTrack with
  | ( a, result, log ) => ( { self with m_stopTrack := a }, result, log )

/-- Embedding of SteamIVRInput::leftHandRoomTurn (part_001 lines
203-206). -/
def SteamIVRInput.leftHandRoomTurn (vrInput : vr.IVRInput)
    (self : SteamIVRInput) :
    SteamIVRInput × Except String Bool × List String :=
  match isDigitalActionActivatedConstant vrInput self.m_leftHandRoomTurn with
  | ( a, result, log ) =>
      ( { self with m_leftHandRoomTurn := a }, result, log )

/-- Embedding of SteamIVRInput::rightHandRoomTurn (part_001 lines
208-211). -/
def SteamIVRInput.rightHandRoomTurn (vrInput : vr.IVRInput)
    (self : SteamIVRInput) :
    SteamIVRInput × Except String Bool × List String :=
  match isDigitalActionActivatedConstant vrInput
      self.m_rightHandRoomTurn with
  | ( a, result, log ) =>
      ( { self with m_rightHandRoomTurn := a }, result, log )

/-- Embedding of SteamIVRInput::leftHandRoomDrag (part_001 lines
213-216). -/
def SteamIVRInput.leftHandRoomDrag (vrInput : vr.IVRInput)
    (self : SteamIVRInput) :
    SteamIVRInput × Except String Bool × List String :=
  match isDigitalActionActivatedConstant vrInput self.m_leftHandRoomDrag with
  | ( a, result, log ) =>
      ( { self with m_leftHandRoomDrag := a }, result, log )

/-- Embedding of SteamIVRInput::rightHandRoomDrag (part_001 lines
218-221). -/
def SteamIVRInput.rightHandRoomDrag (vrInput : vr.IVRInput)
    (self : SteamIVRInput) :
    SteamIVRInput × Except String Bool × List String :=
  match isDigitalActionActivatedConstant vrInput
      self.m_rightHandRoomDrag with
  | ( a, result, log ) =>
      ( { self with m_rightHandRoomDrag := a }, result, log )

/-- Embedding of SteamIVRInput::optionalOverrideLeftHandRoomTurn (part_001
lines 222-226). -/
def SteamIVRInput.optionalOverrideLeftHandRoomTurn (vrInput : vr.IVRInput)
    (self : SteamIVRInput) :
    SteamIVRInput × Except String Bool × List String :=
  match isDigitalActionActivatedConstant vrInput
      self.m_optionalOverrideLeftHandRoomTurn with
  | ( a, result, log ) =>
      ( { self with m_optionalOverrideLeftHandRoomTurn := a }, result, log )

/-- Embedding of SteamIVRInput::optionalOverrideRightHandRoomTurn
(part_001 lines 228-232). -/
def SteamIVRInput.optionalOverrideRightHandRoomTurn (vrInput : vr.IVRInput)
    (self : SteamIVRInput) :
    SteamIVRInput × Except String Bool × List String :=
  match isDigitalActionActivatedConstant vrInput
      self.m_optionalOverrideRightHandRoomTurn with
  | ( a, result, log ) =>
      ( { self with m_optionalOverrideRightHandRoomTurn := a }, result, log )

/-- Embedding of SteamIVRInput::optionalOverrideLeftHandRoomDrag (part_001
lines 234-238). -/
def SteamIVRInput.optionalOverrideLeftHandRoomDrag (vrInput : vr.IVRInput)
    (self : SteamIVRInput) :
    SteamIVRInput × Except String Bool × List String :=
  match isDigitalActionActivatedConstant vrInput
      self.m_optionalOverrideLeftHandRoomDrag with
  | ( a, result, log ) =>
      ( { self with m_optionalOverrideLeftHandRoomDrag := a }, result, log )

/-- Embedding of SteamIVRInput::optionalOverrideRightHandRoomDrag
(part_001 lines 240-244). -/
def SteamIVRInput.optionalOverrideRightHandRoomDrag (vrInput : vr.IVRInput)
    (self : SteamIVRInput) :
    SteamIVRInput × Except String Bool × List String :=
  match isDigitalActionActivatedConstant vrInput
      self.m_optionalOverrideRightHandRoomDrag with
  | ( a, result, log ) =>
      ( { self with m_optionalOverrideRightHandRoomDrag := a }, result, log )

/-- Embedding of SteamIVRInput::pushToTalk (part_001 lines 246-249). -/
def SteamIVRInput.pushToTalk (vrInput : vr.IVRInput)
    (self : SteamIVRInput) :
    SteamIVRInput × Except String Bool × List String :=
  match isDigitalActionActivatedConstant vrInput self.m_pushToTalk with
  | ( a, result, log ) => ( { self with m_pushToTalk := a }, result, log )

/-- Embedding of SteamIVRInput::UpdateStates, part_001 version (lines
256-269), with the same call-trace component as the main version. -/
def SteamIVRInput.UpdateStates (vrInput : vr.IVRInput)
    (self : SteamIVRInput) :
    SteamIVRInput × List (vr.VRActiveActionSet_t × Nat) × List String :=
  let numberOfSets := 1
  let error := vrInput.UpdateActionState self.m_activeActionSet numberOfSets
  if error ≠ vr.EVRInputError.VRInputError_None then
    ( self
    , [ ( self.m_activeActionSet, numberOfSets ) ]
    , [ updateStatesErrorLogMsg error ] )
  else
    ( self, [ ( self.m_activeActionSet, numberOfSets ) ], [] )

end part001

/-- A concrete digital action data value used in witnesses. -/
def testDigitalData : vr.InputDigitalActionData_t :=
  { bActive := true
  , activeOrigin := 4
  , bState := true
  , bChanged := true
  , fUpdateTime := 0 }

/-- A concrete runtime oracle whose calls all succeed, used in
witnesses. -/
def testRuntime : vr.IVRInput :=
  { GetDigitalActionData := fun _ _ => Except.ok testDigitalData
  , GetAnalogActionData := fun _ _ =>
      Except.ok
        { bActive := true
        , activeOrigin := 4
        , x := 1
        , y := 2
        , z := 3
        , deltaX := 0
        , deltaY := 0
        , deltaZ := 0
        , fUpdateTime := 0 }
  , UpdateActionState := fun _ _ => vr.EVRInputError.VRInputError_None
  , GetActionHandle := fun _ => 7
  , GetActionSetHandle := fun _ => 3 }

/-- A concrete runtime oracle whose calls all fail, used in witnesses. -/
def failingRuntime : vr.IVRInput :=
  { GetDigitalActionData := fun _ _ =>
      Except.error vr.EVRInputError.VRInputError_NoSteam
  , GetAnalogActionData := fun _ _ =>
      Except.error vr.EVRInputError.VRInputError_NoSteam
  , UpdateActionState := fun _ _ =>
      vr.EVRInputError.VRInputError_InvalidHandle
  , GetActionHandle := fun _ => 7
  , GetActionSetHandle := fun _ => 3 }

/-- A concrete digital-typed action used in witnesses. -/
def testDigitalAction : input.Action :=
  { name := "test_digital"
  , type := input.ActionType.Digital
  , handle := 7 }

/-- A concrete analog-typed action used in witnesses. -/
def testAnalogAction : input.Action :=
  { name := "test_analog"
  , type := input.ActionType.Analog
  , handle := 8 }

/-- getDigitalActionData returns its Action argument unchanged (the C++
body never assigns through the reference). -/
theorem getDigitalActionData_frame (vrInput : vr.IVRInput)
    (a : input.Action) : (input.getDigitalActionData vrInput a).1 = a := by
  unfold input.getDigitalActionData
  split
  · rfl
  · cases vrInput.GetDigitalActionData a.handle
        vr.k_ulInvalidInputValueHandle with
    | ok d => rfl
    | error e =>
        dsimp only
        split <;> rfl

/-- getAnalogActionData returns its Action argument unchanged. -/
theorem getAnalogActionData_frame (vrInput : vr.IVRInput)
    (a : input.Action) : (input.getAnalogActionData vrInput a).1 = a := by
  unfold input.getAnalogActionData
  split
  · rfl
  · cases vrInput.GetAnalogActionData a.handle
        vr.k_ulInvalidInputValueHandle with
    | ok d => rfl
    | error e =>
        dsimp only
        split <;> rfl

/-- isDigitalActionActivatedOnce returns its Action argument unchanged. -/
theorem activatedOnce_frame (vrInput : vr.IVRInput) (a : input.Action) :
    (input.isDigitalActionActivatedOnce vrInput a).1 = a := by
  have h := getDigitalActionData_frame vrInput a
  unfold input.isDigitalActionActivatedOnce
  rcases hE : input.getDigitalActionData vrInput a with ⟨a2, r, log⟩
  rw [hE] at h
  cases r <;> simpa using h

/-- isDigitalActionActivatedConstant returns its Action argument
unchanged. -/
theorem activatedConstant_frame (vrInput : vr.IVRInput) (a : input.Action) :
    (input.isDigitalActionActivatedConstant vrInput a).1 = a := by
  have h := getDigitalActionData_frame vrInput a
  unfold input.isDigitalActionActivatedConstant
  rcases hE : input.getDigitalActionData vrInput a with ⟨a2, r, log⟩
  rw [hE] at h
  cases r <;> simpa using h

/-- On a digital-typed action, getDigitalActionData never throws: it
returns the action and an ok result. -/
theorem digital_result_ok_of_digital (vrInput : vr.IVRInput)
    (a : input.Action) (h : a.type = input.ActionType.Digital) :
    ∃ d log,
      input.getDigitalActionData vrInput a = (a, Except.ok d, log) := by
  unfold input.getDigitalActionData
  rw [if_neg (by simp [h])]
  cases vrInput.GetDigitalActionData a.handle
      vr.k_ulInvalidInputValueHandle with
  | ok d => exact ⟨d, [], rfl⟩
  | error e =>
      dsimp only
      split
      · exact ⟨_, _, rfl⟩
      · exact ⟨_, _, rfl⟩

/-- On a digital-typed action, isDigitalActionActivatedOnce never
produces a thrown exception. -/
theorem activatedOnce_not_error (vrInput : vr.IVRInput) (a : input.Action)
    (h : a.type = input.ActionType.Digital) (e : String) :
    (input.isDigitalActionActivatedOnce vrInput a).2.1 ≠ Except.error e := by
  obtain ⟨d, log, hE⟩ := digital_result_ok_of_digital vrInput a h
  simp [input.isDigitalActionActivatedOnce, hE]

/-- On a digital-typed action, isDigitalActionActivatedConstant never
produces a thrown exception. -/
theorem activatedConstant_not_error (vrInput : vr.IVRInput)
    (a : input.Action) (h : a.type = input.ActionType.Digital) (e : String) :
    (input.isDigitalActionActivatedConstant vrInput a).2.1
      ≠ Except.error e := by
  obtain ⟨d, log, hE⟩ := digital_result_ok_of_digital vrInput a h
  simp [input.isDigitalActionActivatedConstant, hE]

/-- The part_001 translation of getDigitalActionData is definitionally
the same function as the src/src translation. -/
theorem part001_getDigitalActionData_eq (vrInput : vr.IVRInput)
    (a : input.Action) :
    part001.getDigitalActionData vrInput a
      = input.getDigitalActionData vrInput a := rfl

/-- The part_001 translation of isDigitalActionActivatedOnce is
definitionally the same function as the src/src translation. -/
theorem part001_activatedOnce_eq (vrInput : vr.IVRInput)
    (a : input.Action) :
    part001.isDigitalActionActivatedOnce vrInput a
      = input.isDigitalActionActivatedOnce vrInput a := rfl

/-- The part_001 translation of isDigitalActionActivatedConstant is
definitionally the same function as the src/src translation. -/
theorem part001_activatedConstant_eq (vrInput : vr.IVRInput)
    (a : input.Action) :
    part001.isDigitalActionActivatedConstant vrInput a
      = input.isDigitalActionActivatedConstant vrInput a := rfl

/-- part_001 version of activatedOnce_not_error. -/
theorem part001_activatedOnce_not_error (vrInput : vr.IVRInput)
    (a : input.Action) (h : a.type = input.ActionType.Digital) (e : String) :
    (part001.isDigitalActionActivatedOnce vrInput a).2.1
      ≠ Except.error e := by
  rw [part001_activatedOnce_eq]
  exact activatedOnce_not_error vrInput a h e

/-- part_001 version of activatedConstant_not_error. -/
theorem part001_activatedConstant_not_error (vrInput : vr.IVRInput)
    (a : input.Action) (h : a.type = input.ActionType.Digital) (e : String) :
    (part001.isDigitalActionActivatedConstant vrInput a).2.1
      ≠ Except.error e := by
  rw [part001_activatedConstant_eq]
  exact activatedConstant_not_error vrInput a h e

/-- getAnalogActionData agrees between the two versions as well (used
nowhere below, recorded for completeness of the version comparison). -/
theorem part001_getAnalogActionData_eq (vrInput : vr.IVRInput)
    (a : input.Action) :
    part001.getAnalogActionData vrInput a
      = input.getAnalogActionData vrInput a := rfl

/-- C1: for every digital-typed action, the activated-once query returns
true exactly when the runtime-reported digital state has both bState and
bChanged true (activatedOnce = pressed AND changedSinceLastPoll), and the
media accessors nextSong, previousSong, pausePlaySong, stopSong forward
exactly that query on their member action. -/
theorem digital_activation_once_reduction :
    (∀ (vrInput : vr.IVRInput) (a : input.Action)
        (d : vr.InputDigitalActionData_t),
        a.type = input.ActionType.Digital →
        vrInput.GetDigitalActionData a.handle vr.k_ulInvalidInputValueHandle
          = Except.ok d →
        input.isDigitalActionActivatedOnce vrInput a
          = (a, Except.ok (d.bState && d.bChanged), []))
    ∧ (∀ (vrInput : vr.IVRInput) (s : input.SteamIVRInput),
        (input.SteamIVRInput.nextSong vrInput s).2
          = (input.isDigitalActionActivatedOnce vrInput s.m_nextTrack).2
        ∧ (input.SteamIVRInput.previousSong vrInput s).2
          = (input.isDigitalActionActivatedOnce vrInput s.m_previousTrack).2
        ∧ (input.SteamIVRInput.pausePlaySong vrInput s).2
          = (input.isDigitalActionActivatedOnce vrInput s.m_pausePlayTrack).2
        ∧ (input.SteamIVRInput.stopSong vrInput s).2
          = (input.isDigitalActionActivatedOnce vrInput s.m_stopTrack).2) := by
  constructor
  · intro vrInput a d ha hd
    simp [input.isDigitalActionActivatedOnce, input.getDigitalActionData,
      ha, hd]
  · intro vrInput s
    exact ⟨rfl, rfl, rfl, rfl⟩

/-- Witness for C1 at a concrete runtime and action. -/
theorem digital_activation_once_reduction_witness :
    input.isDigitalActionActivatedOnce testRuntime testDigitalAction
      = (testDigitalAction, Except.ok true, []) :=
  digital_activation_once_reduction.1 testRuntime testDigitalAction
    testDigitalData rfl rfl

/-- C2: an action of the wrong type passed to getDigitalActionData or
getAnalogActionData is logged and escalated by a thrown runtime error; no
data result is returned for a mismatched action. -/
theorem type_mismatch_logged_and_escalated :
    (∀ (vrInput : vr.IVRInput) (a : input.Action),
        a.type ≠ input.ActionType.Digital →
        input.getDigitalActionData vrInput a
          = (a, Except.error input.digitalMismatchThrowMsg,
              [ input.digitalMismatchLogMsg a ]))
    ∧ (∀ (vrInput : vr.IVRInput) (a : input.Action),
        a.type ≠ input.ActionType.Analog →
        input.getAnalogActionData vrInput a
          = (a, Except.error input.analogMismatchThrowMsg,
              [ input.analogMismatchLogMsg a ])) := by
  constructor
  · intro vrInput a ha
    simp [input.getDigitalActionData, ha]
  · intro vrInput a ha
    simp [input.getAnalogActionData, ha]

/-- Witness for C2: a digital action fed to the analog accessor and an
analog action fed to the digital accessor. -/
theorem type_mismatch_logged_and_escalated_witness :
    input.getAnalogActionData testRuntime testDigitalAction
      = (testDigitalAction, Except.error input.analogMismatchThrowMsg,
          [ input.analogMismatchLogMsg testDigitalAction ])
    ∧ input.getDigitalActionData testRuntime testAnalogAction
      = (testAnalogAction, Except.error input.digitalMismatchThrowMsg,
          [ input.digitalMismatchLogMsg testAnalogAction ]) :=
  ⟨type_mismatch_logged_and_escalated.2 testRuntime testDigitalAction
      (by decide),
   type_mismatch_logged_and_escalated.1 testRuntime testAnalogAction
      (by decide)⟩

/-- C3: when the runtime call reports any error code other than success,
the accessor neither throws nor retries: it logs the error once and
returns the zero-initialized action data struct. -/
theorem runtime_error_logged_returns_zeroed :
    (∀ (vrInput : vr.IVRInput) (a : input.Action) (e : vr.EVRInputError),
        a.type = input.ActionType.Digital →
        vrInput.GetDigitalActionData a.handle vr.k_ulInvalidInputValueHandle
          = Except.error e →
        e ≠ vr.EVRInputError.VRInputError_None →
        input.getDigitalActionData vrInput a
          = (a, Except.ok vr.InputDigitalActionData_t.zero,
              [ input.digitalDataErrorLogMsg a e ]))
    ∧ (∀ (vrInput : vr.IVRInput) (a : input.Action) (e : vr.EVRInputError),
        a.type = input.ActionType.Analog →
        vrInput.GetAnalogActionData a.handle vr.k_ulInvalidInputValueHandle
          = Except.error e →
        e ≠ vr.EVRInputError.VRInputError_None →
        input.getAnalogActionData vrInput a
          = (a, Except.ok vr.InputAnalogActionData_t.zero,
              [ input.analogDataErrorLogMsg a e ])) := by
  constructor
  · intro vrInput a e ha he hne
    simp [input.getDigitalActionData, ha, he, hne]
  · intro vrInput a e ha he hne
    simp [input.getAnalogActionData, ha, he, hne]

/-- Witness for C3 at a concrete failing runtime. -/
theorem runtime_error_logged_returns_zeroed_witness :
    input.getDigitalActionData failingRuntime testDigitalAction
      = (testDigitalAction, Except.ok vr.InputDigitalActionData_t.zero,
          [ input.digitalDataErrorLogMsg testDigitalAction
              vr.EVRInputError.VRInputError_NoSteam ])
    ∧ input.getAnalogActionData failingRuntime testAnalogAction
      = (testAnalogAction, Except.ok vr.InputAnalogActionData_t.zero,
          [ input.analogDataErrorLogMsg testAnalogAction
              vr.EVRInputError.VRInputError_NoSteam ]) :=
  ⟨runtime_error_logged_returns_zeroed.1 failingRuntime testDigitalAction
      vr.EVRInputError.VRInputError_NoSteam rfl rfl (by decide),
   runtime_error_logged_returns_zeroed.2 failingRuntime testAnalogAction
      vr.EVRInputError.VRInputError_NoSteam rfl rfl (by decide)⟩

/-- C4: for every digital-typed action, the activated-constant query
returns exactly the runtime-reported bState flag, independent of
bChanged, and the hold-style accessors leftHandRoomDrag and pushToTalk
forward exactly that query on their member action. -/
theorem digital_activation_constant_reduction :
    (∀ (vrInput : vr.IVRInput) (a : input.Action)
        (d : vr.InputDigitalActionData_t),
        a.type = input.ActionType.Digital →
        vrInput.GetDigitalActionData a.handle vr.k_ulInvalidInputValueHandle
          = Except.ok d →
        input.isDigitalActionActivatedConstant vrInput a
          = (a, Except.ok d.bState, []))
    ∧ (∀ (vrInput : vr.IVRInput) (t : part001.SteamIVRInput),
        (part001.SteamIVRInput.leftHandRoomDrag vrInput t).2
          = (part001.isDigitalActionActivatedConstant vrInput
              t.m_leftHandRoomDrag).2
        ∧ (part001.SteamIVRInput.pushToTalk vrInput t).2
          = (part001.isDigitalActionActivatedConstant vrInput
              t.m_pushToTalk).2) := by
  constructor
  · intro vrInput a d ha hd
    simp [input.isDigitalActionActivatedConstant, input.getDigitalActionData,
      ha, hd]
  · intro vrInput t
    exact ⟨rfl, rfl⟩

/-- Witness for C4 at a concrete runtime and action. -/
theorem digital_activation_constant_reduction_witness :
    input.isDigitalActionActivatedConstant testRuntime testDigitalAction
      = (testDigitalAction, Except.ok true, []) :=
  digital_activation_constant_reduction.1 testRuntime testDigitalAction
    testDigitalData rfl rfl

/-- C5: each UpdateStates invocation forwards the one-element active
action set descriptor array to UpdateActionState exactly once (set count
1), returns normally with the state unchanged, and on a failing error
code only logs one message (no retry, nothing raised); this holds for
both source versions. -/
theorem update_states_single_forward :
    ∀ (vrInput : vr.IVRInput) (s : input.SteamIVRInput)
      (t : part001.SteamIVRInput),
      ((input.SteamIVRInput.UpdateStates vrInput s).2.1
        = [ (s.m_activeActionSet, 1) ])
      ∧ ((input.SteamIVRInput.UpdateStates vrInput s).1 = s)
      ∧ (vrInput.UpdateActionState s.m_activeActionSet 1
            ≠ vr.EVRInputError.VRInputError_None →
          (input.SteamIVRInput.UpdateStates vrInput s).2.2
            = [ input.updateStatesErrorLogMsg
                  (vrInput.UpdateActionState s.m_activeActionSet 1) ])
      ∧ (vrInput.UpdateActionState s.m_activeActionSet 1
            = vr.EVRInputError.VRInputError_None →
          (input.SteamIVRInput.UpdateStates vrInput s).2.2 = [])
      ∧ ((part001.SteamIVRInput.UpdateStates vrInput t).2.1
        = [ (t.m_activeActionSet, 1) ])
      ∧ ((part001.SteamIVRInput.UpdateStates vrInput t).1 = t)
      ∧ (vrInput.UpdateActionState t.m_activeActionSet 1
            ≠ vr.EVRInputError.VRInputError_None →
          (part001.SteamIVRInput.UpdateStates vrInput t).2.2
            = [ part001.updateStatesErrorLogMsg
                  (vrInput.UpdateActionState t.m_activeActionSet 1) ])
      ∧ (vrInput.UpdateActionState t.m_activeActionSet 1
            = vr.EVRInputError.VRInputError_None →
          (part001.SteamIVRInput.UpdateStates vrInput t).2.2 = []) := by
  intro vrInput s t
  refine ⟨?_, ?_, ?_, ?_, ?_, ?_, ?_, ?_⟩
  · simp only [input.SteamIVRInput.UpdateStates]
    split <;> rfl
  · simp only [input.SteamIVRInput.UpdateStates]
    split <;> rfl
  · intro h
    simp [input.SteamIVRInput.UpdateStates, h]
  · intro h
    simp [input.SteamIVRInput.UpdateStates, h]
  · simp only [part001.SteamIVRInput.UpdateStates]
    split <;> rfl
  · simp only [part001.SteamIVRInput.UpdateStates]
    split <;> rfl
  · intro h
    simp [part001.SteamIVRInput.UpdateStates, h]
  · intro h
    simp [part001.SteamIVRInput.UpdateStates, h]

/-- Witness for C5 at a concrete failing runtime: the failure is logged
and the call trace is the single forwarded descriptor. -/
theorem update_states_single_forward_witness :
    (input.SteamIVRInput.UpdateStates failingRuntime
        (input.SteamIVRInput.make failingRuntime)).2.2
      = [ input.updateStatesErrorLogMsg
            vr.EVRInputError.VRInputError_InvalidHandle ] :=
  (update_states_single_forward failingRuntime
      (input.SteamIVRInput.make failingRuntime)
      (part001.SteamIVRInput.make failingRuntime)).2.2.1 (by decide)

/-- C6: after construction the active action set descriptor holds the
main set handle, the invalid input value handle as unrestricted scope,
and priority 0; every UpdateStates call forwards exactly this descriptor;
and no operation of either version changes any of its fields. -/
theorem active_action_set_descriptor_invariant :
    ∀ (vrInput : vr.IVRInput),
      ((input.SteamIVRInput.make vrInput).m_activeActionSet
        = { ulActionSet :=
              (input.ActionSet.make vrInput
                input.input_strings.k_setMain).handle
          , ulRestrictedToDevice := vr.k_ulInvalidInputValueHandle
          , nPriority := 0 })
      ∧ ((part001.SteamIVRInput.make vrInput).m_activeActionSet
        = { ulActionSet :=
              (input.ActionSet.make vrInput
                input.input_strings.k_setMain).handle
          , ulRestrictedToDevice := vr.k_ulInvalidInputValueHandle
          , nPriority := 0 })
      ∧ (∀ s : input.SteamIVRInput,
          (input.SteamIVRInput.UpdateStates vrInput s).2.1
            = [ (s.m_activeActionSet, 1) ]
          ∧ (input.SteamIVRInput.UpdateStates vrInput s).1.m_activeActionSet
            = s.m_activeActionSet
          ∧ (input.SteamIVRInput.nextSong vrInput s).1.m_activeActionSet
            = s.m_activeActionSet
          ∧ (input.SteamIVRInput.previousSong vrInput s).1.m_activeActionSet
            = s.m_activeActionSet
          ∧ (input.SteamIVRInput.pausePlaySong vrInput s).1.m_activeActionSet
            = s.m_activeActionSet
          ∧ (input.SteamIVRInput.stopSong vrInput s).1.m_activeActionSet
            = s.m_activeActionSet
          ∧ (input.SteamIVRInput.leftHandPlayspaceRotate vrInput
              s).1.m_activeActionSet = s.m_activeActionSet
          ∧ (input.SteamIVRInput.rightHandPlayspaceRotate vrInput
              s).1.m_activeActionSet = s.m_activeActionSet
          ∧ (input.SteamIVRInput.leftHandPlayspaceMove vrInput
              s).1.m_activeActionSet = s.m_activeActionSet
          ∧ (input.SteamIVRInput.rightHandPlayspaceMove vrInput
              s).1.m_activeActionSet = s.m_activeActionSet
          ∧ (input.SteamIVRInput.optionalOverrideLeftHandPlayspaceRotate
              vrInput s).1.m_activeActionSet = s.m_activeActionSet
          ∧ (input.SteamIVRInput.optionalOverrideRightHandPlayspaceRotate
              vrInput s).1.m_activeActionSet = s.m_activeActionSet
          ∧ (input.SteamIVRInput.optionalOverrideLeftHandPlayspaceMove
              vrInput s).1.m_activeActionSet = s.m_activeActionSet
          ∧ (input.SteamIVRInput.optionalOverrideRightHandPlayspaceMove
              vrInput s).1.m_activeActionSet = s.m_activeActionSet)
      ∧ (∀ t : part001.SteamIVRInput,
          (part001.SteamIVRInput.UpdateStates vrInput t).2.1
            = [ (t.m_activeActionSet, 1) ]
          ∧ (part001.SteamIVRInput.UpdateStates vrInput
              t).1.m_activeActionSet = t.m_activeActionSet
          ∧ (part001.SteamIVRInput.nextSong vrInput t).1.m_activeActionSet
            = t.m_activeActionSet
          ∧ (part001.SteamIVRInput.previousSong vrInput
              t).1.m_activeActionSet = t.m_activeActionSet
          ∧ (part001.SteamIVRInput.pausePlaySong vrInput
              t).1.m_activeActionSet = t.m_activeActionSet
          ∧ (part001.SteamIVRInput.stopSong vrInput t).1.m_activeActionSet
            = t.m_activeActionSet
          ∧ (part001.SteamIVRInput.leftHandRoomTurn vrInput
              t).1.m_activeActionSet = t.m_activeActionSet
          ∧ (part001.SteamIVRInput.rightHandRoomTurn vrInput
              t).1.m_activeActionSet = t.m_activeActionSet
          ∧ (part001.SteamIVRInput.leftHandRoomDrag vrInput
              t).1.m_activeActionSet = t.m_activeActionSet
          ∧ (part001.SteamIVRInput.rightHandRoomDrag vrInput
              t).1.m_activeActionSet = t.m_activeActionSet
          ∧ (part001.SteamIVRInput.optionalOverrideLeftHandRoomTurn vrInput
              t).1.m_activeActionSet = t.m_activeActionSet
          ∧ (part001.SteamIVRInput.optionalOverrideRightHandRoomTurn vrInput
              t).1.m_activeActionSet = t.m_activeActionSet
          ∧ (part001.SteamIVRInput.optionalOverrideLeftHandRoomDrag vrInput
              t).1.m_activeActionSet = t.m_activeActionSet
          ∧ (part001.SteamIVRInput.optionalOverrideRightHandRoomDrag vrInput
              t).1.m_activeActionSet = t.m_activeActionSet
          ∧ (part001.SteamIVRInput.pushToTalk vrInput t).1.m_activeActionSet
            = t.m_activeActionSet) := by
  intro vrInput
  refine ⟨rfl, rfl, fun s => ⟨?_, ?_, rfl, rfl, rfl, rfl, rfl, rfl, rfl,
    rfl, rfl, rfl, rfl, rfl⟩, fun t => ⟨?_, ?_, rfl, rfl, rfl, rfl, rfl,
    rfl, rfl, rfl, rfl, rfl, rfl, rfl, rfl⟩⟩
  · simp only [input.SteamIVRInput.UpdateStates]
    split <;> rfl
  · simp only [input.SteamIVRInput.UpdateStates]
    split <;> rfl
  · simp only [part001.SteamIVRInput.UpdateStates]
    split <;> rfl
  · simp only [part001.SteamIVRInput.UpdateStates]
    split <;> rfl

/-- C7: no query operation modifies any Action: the free accessors return
their Action argument unchanged, and every SteamIVRInput method returns
the whole object state unchanged (hence every member Action of it). -/
theorem action_objects_immutable :
    ∀ (vrInput : vr.IVRInput) (a : input.Action) (s : input.SteamIVRInput),
      ((input.getDigitalActionData vrInput a).1 = a)
      ∧ ((input.getAnalogActionData vrInput a).1 = a)
      ∧ ((input.isDigitalActionActivatedOnce vrInput a).1 = a)
      ∧ ((input.isDigitalActionActivatedConstant vrInput a).1 = a)
      ∧ ((input.SteamIVRInput.nextSong vrInput s).1 = s)
      ∧ ((input.SteamIVRInput.previousSong vrInput s).1 = s)
      ∧ ((input.SteamIVRInput.pausePlaySong vrInput s).1 = s)
      ∧ ((input.SteamIVRInput.stopSong vrInput s).1 = s)
      ∧ ((input.SteamIVRInput.leftHandPlayspaceRotate vrInput s).1 = s)
      ∧ ((input.SteamIVRInput.rightHandPlayspaceRotate vrInput s).1 = s)
      ∧ ((input.SteamIVRInput.leftHandPlayspaceMove vrInput s).1 = s)
      ∧ ((input.SteamIVRInput.rightHandPlayspaceMove vrInput s).1 = s)
      ∧ ((input.SteamIVRInput.optionalOverrideLeftHandPlayspaceRotate
            vrInput s).1 = s)
      ∧ ((input.SteamIVRInput.optionalOverrideRightHandPlayspaceRotate
            vrInput s).1 = s)
      ∧ ((input.SteamIVRInput.optionalOverrideLeftHandPlayspaceMove
            vrInput s).1 = s)
      ∧ ((input.SteamIVRInput.optionalOverrideRightHandPlayspaceMove
            vrInput s).1 = s)
      ∧ ((input.SteamIVRInput.UpdateStates vrInput s).1 = s) := by
  intro vrInput a s
  refine ⟨getDigitalActionData_frame vrInput a,
    getAnalogActionData_frame vrInput a,
    activatedOnce_frame vrInput a,
    activatedConstant_frame vrInput a,
    ?_, ?_, ?_, ?_, ?_, ?_, ?_, ?_, ?_, ?_, ?_, ?_, ?_⟩
  · exact (congrArg (fun x => { s with m_nextTrack := x })
      (activatedOnce_frame vrInput s.m_nextTrack)).trans rfl
  · exact (congrArg (fun x => { s with m_previousTrack := x })
      (activatedOnce_frame vrInput s.m_previousTrack)).trans rfl
  · exact (congrArg (fun x => { s with m_pausePlayTrack := x })
      (activatedOnce_frame vrInput s.m_pausePlayTrack)).trans rfl
  · exact (congrArg (fun x => { s with m_stopTrack := x })
      (activatedOnce_frame vrInput s.m_stopTrack)).trans rfl
  · exact (congrArg (fun x => { s with m_leftHandPlayspaceRotate := x })
      (activatedConstant_frame vrInput
        s.m_leftHandPlayspaceRotate)).trans rfl
  · exact (congrArg (fun x => { s with m_rightHandPlayspaceRotate := x })
      (activatedConstant_frame vrInput
        s.m_rightHandPlayspaceRotate)).trans rfl
  · exact (congrArg (fun x => { s with m_leftHandPlayspaceMove := x })
      (activatedConstant_frame vrInput s.m_leftHandPlayspaceMove)).trans rfl
  · exact (congrArg (fun x => { s with m_rightHandPlayspaceMove := x })
      (activatedConstant_frame vrInput
        s.m_rightHandPlayspaceMove)).trans rfl
  · exact (congrArg
      (fun x => { s with m_optionalOverrideLeftHandPlayspaceRotate := x })
      (activatedConstant_frame vrInput
        s.m_optionalOverrideLeftHandPlayspaceRotate)).trans rfl
  · exact (congrArg
      (fun x => { s with m_optionalOverrideRightHandPlayspaceRotate := x })
      (activatedConstant_frame vrInput
        s.m_optionalOverrideRightHandPlayspaceRotate)).trans rfl
  · exact (congrArg
      (fun x => { s with m_optionalOverrideLeftHandPlayspaceMove := x })
      (activatedConstant_frame vrInput
        s.m_optionalOverrideLeftHandPlayspaceMove)).trans rfl
  · exact (congrArg
      (fun x => { s with m_optionalOverrideRightHandPlayspaceMove := x })
      (activatedConstant_frame vrInput
        s.m_optionalOverrideRightHandPlayspaceMove)).trans rfl
  · simp only [input.SteamIVRInput.UpdateStates]
    split <;> rfl

/-- C8: whenever the activated-once query answers true, the
activated-constant query answers true on the same action and runtime
(being pressed-and-changed implies being pressed); moreover both reduce
to the same digital data, the once answer being the conjunction of the
constant answer with the changed flag. -/
theorem activated_once_implies_activated_constant :
    ∀ (vrInput : vr.IVRInput) (a : input.Action),
      ((input.isDigitalActionActivatedOnce vrInput a).2.1 = Except.ok true →
        (input.isDigitalActionActivatedConstant vrInput a).2.1
          = Except.ok true)
      ∧ (∀ (a2 : input.Action) (d : vr.InputDigitalActionData_t)
          (log : List String),
          input.getDigitalActionData vrInput a = (a2, Except.ok d, log) →
          (input.isDigitalActionActivatedOnce vrInput a).2.1
            = Except.ok (d.bState && d.bChanged)
          ∧ (input.isDigitalActionActivatedConstant vrInput a).2.1
            = Except.ok d.bState) := by
  intro vrInput a
  constructor
  · intro h
    rcases hE : input.getDigitalActionData vrInput a with ⟨a2, r, log⟩
    cases r with
    | ok d =>
        simp only [input.isDigitalActionActivatedOnce, hE] at h
        simp only [input.isDigitalActionActivatedConstant, hE]
        have hb : d.bState && d.bChanged = true := by simpa using h
        have hs : d.bState = true := (Bool.and_eq_true _ _).mp hb |>.1
        simpa using hs
    | error e =>
        simp only [input.isDigitalActionActivatedOnce, hE] at h
        simp at h
  · intro a2 d log hE
    constructor
    · simp [input.isDigitalActionActivatedOnce, hE]
    · simp [input.isDigitalActionActivatedConstant, hE]

/-- Witness for C8 at a concrete runtime and action where the once query
answers true. -/
theorem activated_once_implies_activated_constant_witness :
    (input.isDigitalActionActivatedConstant testRuntime
        testDigitalAction).2.1 = Except.ok true :=
  (activated_once_implies_activated_constant testRuntime
    testDigitalAction).1 rfl

/-- C9: every public query method of the constructed SteamIVRInput (both
versions) operates on a member action constructed with the Digital type
and only through digital accessors, so none can ever produce the
type-mismatch exception of getDigitalActionData. -/
theorem public_queries_never_type_mismatch :
    ∀ (vrInput : vr.IVRInput) (e : String),
      ((input.SteamIVRInput.nextSong vrInput
          (input.SteamIVRInput.make vrInput)).2.1 ≠ Except.error e)
      ∧ ((input.SteamIVRInput.previousSong vrInput
          (input.SteamIVRInput.make vrInput)).2.1 ≠ Except.error e)
      ∧ ((input.SteamIVRInput.pausePlaySong vrInput
          (input.SteamIVRInput.make vrInput)).2.1 ≠ Except.error e)
      ∧ ((input.SteamIVRInput.stopSong vrInput
          (input.SteamIVRInput.make vrInput)).2.1 ≠ Except.error e)
      ∧ ((input.SteamIVRInput.leftHandPlayspaceRotate vrInput
          (input.SteamIVRInput.make vrInput)).2.1 ≠ Except.error e)
      ∧ ((input.SteamIVRInput.rightHandPlayspaceRotate vrInput
          (input.SteamIVRInput.make vrInput)).2.1 ≠ Except.error e)
      ∧ ((input.SteamIVRInput.leftHandPlayspaceMove vrInput
          (input.SteamIVRInput.make vrInput)).2.1 ≠ Except.error e)
      ∧ ((input.SteamIVRInput.rightHandPlayspaceMove vrInput
          (input.SteamIVRInput.make vrInput)).2.1 ≠ Except.error e)
      ∧ ((input.SteamIVRInput.optionalOverrideLeftHandPlayspaceRotate
          vrInput (input.SteamIVRInput.make vrInput)).2.1 ≠ Except.error e)
      ∧ ((input.SteamIVRInput.optionalOverrideRightHandPlayspaceRotate
          vrInput (input.SteamIVRInput.make vrInput)).2.1 ≠ Except.error e)
      ∧ ((input.SteamIVRInput.optionalOverrideLeftHandPlayspaceMove
          vrInput (input.SteamIVRInput.make vrInput)).2.1 ≠ Except.error e)
      ∧ ((input.SteamIVRInput.optionalOverrideRightHandPlayspaceMove
          vrInput (input.SteamIVRInput.make vrInput)).2.1 ≠ Except.error e)
      ∧ ((part001.SteamIVRInput.nextSong vrInput
          (part001.SteamIVRInput.make vrInput)).2.1 ≠ Except.error e)
      ∧ ((part001.SteamIVRInput.previousSong vrInput
          (part001.SteamIVRInput.make vrInput)).2.1 ≠ Except.error e)
      ∧ ((part001.SteamIVRInput.pausePlaySong vrInput
          (part001.SteamIVRInput.make vrInput)).2.1 ≠ Except.error e)
      ∧ ((part001.SteamIVRInput.stopSong vrInput
          (part001.SteamIVRInput.make vrInput)).2.1 ≠ Except.error e)
      ∧ ((part001.SteamIVRInput.leftHandRoomTurn vrInput
          (part001.SteamIVRInput.make vrInput)).2.1 ≠ Except.error e)
      ∧ ((part001.SteamIVRInput.rightHandRoomTurn vrInput
          (part001.SteamIVRInput.make vrInput)).2.1 ≠ Except.error e)
      ∧ ((part001.SteamIVRInput.leftHandRoomDrag vrInput
          (part001.SteamIVRInput.make vrInput)).2.1 ≠ Except.error e)
      ∧ ((part001.SteamIVRInput.rightHandRoomDrag vrInput
          (part001.SteamIVRInput.make vrInput)).2.1 ≠ Except.error e)
      ∧ ((part001.SteamIVRInput.optionalOverrideLeftHandRoomTurn vrInput
          (part001.SteamIVRInput.make vrInput)).2.1 ≠ Except.error e)
      ∧ ((part001.SteamIVRInput.optionalOverrideRightHandRoomTurn vrInput
          (part001.SteamIVRInput.make vrInput)).2.1 ≠ Except.error e)
      ∧ ((part001.SteamIVRInput.optionalOverrideLeftHandRoomDrag vrInput
          (part001.SteamIVRInput.make vrInput)).2.1 ≠ Except.error e)
      ∧ ((part001.SteamIVRInput.optionalOverrideRightHandRoomDrag vrInput
          (part001.SteamIVRInput.make vrInput)).2.1 ≠ Except.error e)
      ∧ ((part001.SteamIVRInput.pushToTalk vrInput
          (part001.SteamIVRInput.make vrInput)).2.1 ≠ Except.error e) := by
  intro vrInput e
  refine ⟨?_, ?_, ?_, ?_, ?_, ?_, ?_, ?_, ?_, ?_, ?_, ?_, ?_, ?_, ?_, ?_,
    ?_, ?_, ?_, ?_, ?_, ?_, ?_, ?_, ?_⟩ <;>
    first
      | exact activatedOnce_not_error vrInput _ rfl e
      | exact activatedConstant_not_error vrInput _ rfl e

/-- Witness for C9 at a concrete runtime and message. -/
theorem public_queries_never_type_mismatch_witness :
    (input.SteamIVRInput.nextSong testRuntime
        (input.SteamIVRInput.make testRuntime)).2.1
      ≠ Except.error "mismatch" :=
  (public_queries_never_type_mismatch testRuntime "mismatch").1

/-- C10: the two source versions of the translation unit compute
identical digital accessor functions: getDigitalActionData,
isDigitalActionActivatedOnce and isDigitalActionActivatedConstant of
src/unnamed/part_001 agree with the functions of the same names of
src/src/ivrinput/ivrinput.cpp on every runtime and action. -/
theorem two_versions_compute_equal_functions :
    ∀ (vrInput : vr.IVRInput) (a : input.Action),
      part001.getDigitalActionData vrInput a
        = input.getDigitalActionData vrInput a
      ∧ part001.isDigitalActionActivatedOnce vrInput a
        = input.isDigitalActionActivatedOnce vrInput a
      ∧ part001.isDigitalActionActivatedConstant vrInput a
        = input.isDigitalActionActivatedConstant vrInput a :=
  fun _ _ => ⟨rfl, rfl, rfl⟩
